import Mathlib

/-!
Verification of the hotel-room program: discount strategies, room
construction, and the `Hotel` collection (duplicate checks, average cost).
C++ `double` values are modelled as rationals (`ℚ`); thrown exceptions are
modelled as `Except` / `Option` error results; the mutation performed by
`Hotel::addRoom` is modelled by explicit state passing (the result record
carries the hotel state after the call).
-/

namespace HotelSpec

/-- The three recoverable error kinds of the program
(`InvalidValueException`, `DuplicateRoomException`,
`EmptyRoomListException`). `duplicateRoom` carries the offending label,
as the C++ message embeds it. -/
inductive HotelError where
  | invalidValue (msg : String)
  | duplicateRoom (label : String)
  | emptyRoomList (msg : String)
deriving DecidableEq

/-- The closed variant of discount strategies present in the source:
`NoDiscountStrategy` and `PercentageDiscountStrategy` (with its stored
`discountPercent`). -/
inductive IDiscountStrategy where
  | noDiscount
  | percentageDiscount (discountPercent : ℚ)
deriving DecidableEq

/-- `computeCost`: `NoDiscountStrategy` returns `baseCost`;
`PercentageDiscountStrategy` returns `baseCost * (1 - discountPercent / 100)`. -/
def IDiscountStrategy.computeCost : IDiscountStrategy → ℚ → ℚ
  | .noDiscount, baseCost => baseCost
  | .percentageDiscount p, baseCost => baseCost * (1 - p / 100)

/-- The `PercentageDiscountStrategy` constructor: throws
`InvalidValueException` when `percent < 0`, then when `percent >= 100`. -/
def PercentageDiscountStrategy.make (percent : ℚ) : Except HotelError IDiscountStrategy :=
  if percent < 0 then
    .error (.invalidValue "процент скидки должен быть >= 0")
  else if 100 ≤ percent then
    .error (.invalidValue "процент скидки должен быть < 100")
  else
    .ok (.percentageDiscount percent)

/-- A constructed room: `number`, `baseCost`, `discountStrategy` (non-null,
the constructor rejects a null strategy). -/
structure RoomBase where
  number : String
  baseCost : ℚ
  discountStrategy : IDiscountStrategy
deriving DecidableEq

/-- The `RoomBase` constructor: rejects an empty `number`, then
`baseCost <= 0`, then a null strategy (`Option.none` models the null
`shared_ptr`). -/
def RoomBase.make (number : String) (baseCost : ℚ)
    (strategy : Option IDiscountStrategy) : Except HotelError RoomBase :=
  if number = "" then
    .error (.invalidValue "номер комнаты не может быть пустым")
  else if baseCost ≤ 0 then
    .error (.invalidValue "базовая стоимость должна быть > 0")
  else
    match strategy with
    | none => .error (.invalidValue "стратегия скидки не может быть null")
    | some s => .ok ⟨number, baseCost, s⟩

/-- `getFinalCost`: recomputed on every call from the stored strategy and
base cost. -/
def RoomBase.getFinalCost (r : RoomBase) : ℚ :=
  r.discountStrategy.computeCost r.baseCost

/-- The hotel state: the ordered `rooms` vector. -/
structure Hotel where
  rooms : List RoomBase
deriving DecidableEq

/-- `Hotel::existsRoomNumber`: linear scan comparing stored labels with
`num` by exact string equality. -/
def Hotel.existsRoomNumber (h : Hotel) (num : String) : Bool :=
  h.rooms.any fun r => r.number == num

/-- Outcome of one `Hotel::addRoom` call: the hotel state after the call
(unchanged when an exception propagates), whether the long-label warning
was printed, and the propagated exception, if any. -/
structure AddRoomResult where
  hotel : Hotel
  warned : Bool
  error : Option HotelError
deriving DecidableEq

/-- `Hotel::addRoom`: warns (non-fatally) when the label exceeds 50
characters, throws `DuplicateRoomException` when the label exists, builds
a `NoDiscountStrategy` when `discountPercent == 0` and a
`PercentageDiscountStrategy` otherwise (propagating its exception), then
constructs the `RoomBase` (propagating its exception) and appends it. -/
def Hotel.addRoom (h : Hotel) (number : String) (baseCost : ℚ)
    (discountPercent : ℚ) : AddRoomResult :=
  let warned := decide (number.length > 50)
  if h.existsRoomNumber number then
    ⟨h, warned, some (.duplicateRoom number)⟩
  else
    match (if discountPercent = 0 then Except.ok IDiscountStrategy.noDiscount
           else PercentageDiscountStrategy.make discountPercent) with
    | .error e => ⟨h, warned, some e⟩
    | .ok strat =>
      match RoomBase.make number baseCost (some strat) with
      | .error e => ⟨h, warned, some e⟩
      | .ok room => ⟨⟨h.rooms ++ [room]⟩, warned, none⟩

/-- `Hotel::calculateAverageCost`: throws `EmptyRoomListException` on an
empty collection, otherwise accumulates `getFinalCost` over the rooms and
divides by the count. -/
def Hotel.calculateAverageCost (h : Hotel) : Except HotelError ℚ :=
  if h.rooms.isEmpty then
    .error (.emptyRoomList "нечего усреднять")
  else
    .ok ((h.rooms.foldl (fun s r => s + r.getFinalCost) 0) / (h.rooms.length : ℚ))

/-- Hotel states reachable from the initial empty hotel by `addRoom`
calls, the program's only mutating operation. -/
inductive Reachable : Hotel → Prop where
  | init : Reachable ⟨[]⟩
  | step (h : Hotel) (n : String) (b d : ℚ) :
      Reachable h → Reachable (h.addRoom n b d).hotel

/-! ### Helper lemmas -/

theorem foldl_add_getFinalCost (l : List RoomBase) (a : ℚ) :
    l.foldl (fun s r => s + r.getFinalCost) a
      = a + (l.map RoomBase.getFinalCost).sum := by
  induction l generalizing a with
  | nil => simp
  | cons x xs ih => simp [ih, add_assoc]

theorem existsRoomNumber_eq_false_iff (h : Hotel) (n : String) :
    h.existsRoomNumber n = false ↔ n ∉ h.rooms.map RoomBase.number := by
  unfold Hotel.existsRoomNumber
  simp [List.any_eq_true]

theorem addRoom_success (h : Hotel) (n : String) (b d : ℚ)
    (hdup : h.existsRoomNumber n = false) (hn : n ≠ "") (hb : 0 < b)
    (hd0 : 0 ≤ d) (hd1 : d < 100) :
    ∃ room, room.number = n ∧
      h.addRoom n b d = ⟨⟨h.rooms ++ [room]⟩, decide (n.length > 50), none⟩ := by
  have hb' : ¬ b ≤ 0 := not_le.mpr hb
  unfold Hotel.addRoom
  by_cases hd : d = 0
  · refine ⟨⟨n, b, .noDiscount⟩, rfl, ?_⟩
    simp [hdup, hd, RoomBase.make, hn, hb']
  · refine ⟨⟨n, b, .percentageDiscount d⟩, rfl, ?_⟩
    have h1 : ¬ d < 0 := not_lt.mpr hd0
    have h2 : ¬ 100 ≤ d := not_le.mpr hd1
    simp [hdup, hd, PercentageDiscountStrategy.make, h1, h2,
      RoomBase.make, hn, hb']

theorem addRoom_rooms_cases (h : Hotel) (n : String) (b d : ℚ) :
    (h.addRoom n b d).hotel = h ∨
    (h.existsRoomNumber n = false ∧ ∃ room, room.number = n ∧
      (h.addRoom n b d).hotel.rooms = h.rooms ++ [room]) := by
  unfold Hotel.addRoom
  by_cases hdup : h.existsRoomNumber n = true
  · left
    simp [hdup]
  · rw [Bool.not_eq_true] at hdup
    cases hs : (if d = 0 then Except.ok IDiscountStrategy.noDiscount
        else PercentageDiscountStrategy.make d) with
    | error e =>
      left
      simp [hdup, hs]
    | ok strat =>
      cases hr : RoomBase.make n b (some strat) with
      | error e =>
        left
        simp [hdup, hs, hr]
      | ok room =>
        right
        have hnum : room.number = n := by
          unfold RoomBase.make at hr
          by_cases h1 : n = ""
          · simp [h1] at hr
          · by_cases h2 : b ≤ 0
            · simp [h1, h2] at hr
            · simp [h1, h2] at hr
              rw [← hr]
        exact ⟨hdup, room, hnum, by simp [hdup, hs, hr]⟩

/-! ### Claims -/

/-- C3: for `0 ≤ rate < 100`, `PercentageDiscount(rate)` constructs
successfully and `computeFinalCost(b) = b * (1 - rate/100)`; and
`NoDiscount.computeFinalCost(b) = b`. -/
theorem computeFinalCost_spec (rate b : ℚ) (h0 : 0 ≤ rate) (h1 : rate < 100) :
    PercentageDiscountStrategy.make rate
        = .ok (.percentageDiscount rate) ∧
    (IDiscountStrategy.percentageDiscount rate).computeCost b
        = b * (1 - rate / 100) ∧
    IDiscountStrategy.noDiscount.computeCost b = b := by
  refine ⟨?_, rfl, rfl⟩
  unfold PercentageDiscountStrategy.make
  rw [if_neg (not_lt.mpr h0), if_neg (not_le.mpr h1)]

/-- Witness for C3 at `rate = 20`, `b = 50`. -/
theorem computeFinalCost_spec_witness :
    PercentageDiscountStrategy.make 20
        = .ok (.percentageDiscount 20) ∧
    (IDiscountStrategy.percentageDiscount 20).computeCost 50
        = 50 * (1 - 20 / 100) ∧
    IDiscountStrategy.noDiscount.computeCost 50 = 50 :=
  computeFinalCost_spec 20 50 (by norm_num) (by norm_num)

/-- C1: `calculateAverageCost` fails with the empty-collection error when
the hotel has no rooms, and otherwise returns exactly the sum of
`getFinalCost` over the rooms divided by the room count, with no rounding. -/
theorem calculateAverageCost_spec (h : Hotel) :
    h.calculateAverageCost =
      if h.rooms = [] then
        Except.error (HotelError.emptyRoomList "нечего усреднять")
      else
        Except.ok ((h.rooms.map RoomBase.getFinalCost).sum / (h.rooms.length : ℚ)) := by
  obtain ⟨rooms⟩ := h
  cases rooms with
  | nil => rfl
  | cons x xs =>
    simp [Hotel.calculateAverageCost, foldl_add_getFinalCost]

/-- C2: when the label is already present, `addRoom` fails with
`DuplicateRoom` naming the label and leaves the collection unchanged. -/
theorem addRoom_duplicate (h : Hotel) (number : String) (b d : ℚ)
    (hdup : h.existsRoomNumber number = true) :
    (h.addRoom number b d).error = some (HotelError.duplicateRoom number) ∧
    (h.addRoom number b d).hotel = h := by
  unfold Hotel.addRoom
  simp [hdup]

/-- Witness for C2: a hotel holding room "101" rejects a second "101". -/
theorem addRoom_duplicate_witness :
    ((Hotel.mk [⟨"101", 100, IDiscountStrategy.noDiscount⟩]).addRoom "101" 150 0).error
        = some (HotelError.duplicateRoom "101") ∧
    ((Hotel.mk [⟨"101", 100, IDiscountStrategy.noDiscount⟩]).addRoom "101" 150 0).hotel
        = Hotel.mk [⟨"101", 100, IDiscountStrategy.noDiscount⟩] :=
  addRoom_duplicate (Hotel.mk [⟨"101", 100, IDiscountStrategy.noDiscount⟩])
    "101" 150 0 (by decide)

/-- C4: constructing `PercentageDiscount(rate)` fails with `InvalidValue`
if and only if `rate < 0` or `rate ≥ 100`. -/
theorem percentageDiscount_make_invalid_iff (rate : ℚ) :
    (∃ msg, PercentageDiscountStrategy.make rate
        = .error (.invalidValue msg)) ↔ (rate < 0 ∨ 100 ≤ rate) := by
  unfold PercentageDiscountStrategy.make
  by_cases hlt : rate < 0
  · simp [hlt]
  · by_cases hge : 100 ≤ rate
    · simp [hlt, hge]
    · simp [hlt, hge]

/-- C5: constructing a `RoomBase` fails with `InvalidValue` exactly when
the label is empty, or `baseCost ≤ 0`, or the strategy is null; in
particular `baseCost = 0` and `baseCost = -5` both fail. -/
theorem roomBase_make_invalid_iff :
    (∀ (label : String) (b : ℚ) (p : Option IDiscountStrategy),
        (∃ msg, RoomBase.make label b p = .error (.invalidValue msg)) ↔
          (label = "" ∨ b ≤ 0 ∨ p = none)) ∧
    (∃ msg, RoomBase.make "101" 0 (some IDiscountStrategy.noDiscount)
        = .error (.invalidValue msg)) ∧
    (∃ msg, RoomBase.make "101" (-5) (some IDiscountStrategy.noDiscount)
        = .error (.invalidValue msg)) := by
  have main : ∀ (label : String) (b : ℚ) (p : Option IDiscountStrategy),
      (∃ msg, RoomBase.make label b p = .error (.invalidValue msg)) ↔
        (label = "" ∨ b ≤ 0 ∨ p = none) := by
    intro label b p
    unfold RoomBase.make
    by_cases hl : label = ""
    · simp [hl]
    · by_cases hb : b ≤ 0
      · simp [hl, hb]
      · cases p with
        | none => simp [hl, hb]
        | some s => simp [hl, hb]
  refine ⟨main, ?_, ?_⟩
  · exact (main "101" 0 (some IDiscountStrategy.noDiscount)).mpr
      (Or.inr (Or.inl le_rfl))
  · exact (main "101" (-5) (some IDiscountStrategy.noDiscount)).mpr
      (Or.inr (Or.inl (by norm_num)))

/-- C7: for `b > 0` and `0 ≤ rate < 100`, the percentage-discounted final
cost is strictly below `b` when `rate > 0` and equals `b` when `rate = 0`. -/
theorem percentageDiscount_strict_decrease (b rate : ℚ)
    (hb : 0 < b) (h0 : 0 ≤ rate) (h1 : rate < 100) :
    (0 < rate → (IDiscountStrategy.percentageDiscount rate).computeCost b < b) ∧
    (rate = 0 → (IDiscountStrategy.percentageDiscount rate).computeCost b = b) := by
  constructor
  · intro hr
    unfold IDiscountStrategy.computeCost
    nlinarith
  · intro hr
    subst hr
    unfold IDiscountStrategy.computeCost
    ring

/-- Witness for C7 at `b = 100`, `rate = 20`. -/
theorem percentageDiscount_strict_decrease_witness :
    (IDiscountStrategy.percentageDiscount 20).computeCost 100 < 100 :=
  (percentageDiscount_strict_decrease 100 20 (by norm_num) (by norm_num)
    (by norm_num)).1 (by norm_num)

/-- C6: in every hotel state reachable by `addRoom` calls the room labels
are pairwise distinct, and `addRoom` only ever appends (at most one room,
existing order untouched). -/
theorem reachable_labels_nodup (h : Hotel) (hre : Reachable h) :
    (h.rooms.map RoomBase.number).Nodup ∧
    ∀ (n : String) (b d : ℚ), ∃ tail,
      (h.addRoom n b d).hotel.rooms = h.rooms ++ tail ∧ tail.length ≤ 1 := by
  have append_only : ∀ (g : Hotel) (n : String) (b d : ℚ), ∃ tail,
      (g.addRoom n b d).hotel.rooms = g.rooms ++ tail ∧ tail.length ≤ 1 := by
    intro g n b d
    rcases addRoom_rooms_cases g n b d with hsame | ⟨_, room, _, happ⟩
    · exact ⟨[], by simp [hsame], by simp⟩
    · exact ⟨[room], happ, by simp⟩
  refine ⟨?_, append_only h⟩
  induction hre with
  | init => simp
  | step g n b d hg ih =>
    rcases addRoom_rooms_cases g n b d with hsame | ⟨hex, room, hnum, happ⟩
    · rw [hsame]
      exact ih
    · have hmem : room.number ∉ g.rooms.map RoomBase.number := by
        rw [hnum]
        exact (existsRoomNumber_eq_false_iff g n).mp hex
      rw [happ, List.map_append]
      simp only [List.nodup_append, List.map_singleton]
      exact ⟨ih, List.nodup_singleton _, by simpa using hmem⟩

/-- Witness for C6: the hotel obtained by adding room "101" to the empty
hotel has distinct labels, and a further `addRoom` appends at most one room. -/
theorem reachable_labels_nodup_witness :
    (((((Hotel.mk []).addRoom "101" 100 0).hotel).rooms.map RoomBase.number).Nodup) ∧
    (∃ tail,
      ((((Hotel.mk []).addRoom "101" 100 0).hotel).addRoom "102" 200 50).hotel.rooms
          = (((Hotel.mk []).addRoom "101" 100 0).hotel).rooms ++ tail ∧
        tail.length ≤ 1) :=
  ⟨(reachable_labels_nodup _
      (Reachable.step (Hotel.mk []) "101" 100 0 Reachable.init)).1,
   (reachable_labels_nodup _
      (Reachable.step (Hotel.mk []) "101" 100 0 Reachable.init)).2 "102" 200 50⟩

/-- C8: a label longer than 50 characters that is otherwise valid and not
a duplicate is accepted: the warning fires, no error is raised, and the
room is still appended. -/
theorem addRoom_long_label (h : Hotel) (n : String) (b d : ℚ)
    (hlen : 50 < n.length) (hdup : h.existsRoomNumber n = false)
    (hb : 0 < b) (hd0 : 0 ≤ d) (hd1 : d < 100) :
    (h.addRoom n b d).warned = true ∧
    (h.addRoom n b d).error = none ∧
    ∃ room, room.number = n ∧
      (h.addRoom n b d).hotel.rooms = h.rooms ++ [room] := by
  have hn : n ≠ "" := by
    intro hE
    subst hE
    exact absurd hlen (by decide)
  obtain ⟨room, hnum, heq⟩ := addRoom_success h n b d hdup hn hb hd0 hd1
  rw [heq]
  exact ⟨decide_eq_true hlen, rfl, room, hnum, rfl⟩

/-- Witness for C8: a 51-character label is appended to the empty hotel
with the warning set. -/
theorem addRoom_long_label_witness :
    (((Hotel.mk []).addRoom
        "aaaaaaaaaaaaaaaaaaaaaaaaaaaaaaaaaaaaaaaaaaaaaaaaaaa" 100 0).warned
      = true) ∧
    (((Hotel.mk []).addRoom
        "aaaaaaaaaaaaaaaaaaaaaaaaaaaaaaaaaaaaaaaaaaaaaaaaaaa" 100 0).error
      = none) ∧
    ∃ room, room.number = "aaaaaaaaaaaaaaaaaaaaaaaaaaaaaaaaaaaaaaaaaaaaaaaaaaa" ∧
      ((Hotel.mk []).addRoom
          "aaaaaaaaaaaaaaaaaaaaaaaaaaaaaaaaaaaaaaaaaaaaaaaaaaa" 100 0).hotel.rooms
        = [] ++ [room] :=
  addRoom_long_label (Hotel.mk [])
    "aaaaaaaaaaaaaaaaaaaaaaaaaaaaaaaaaaaaaaaaaaaaaaaaaaa" 100 0
    (by decide) (by decide) (by norm_num) (by norm_num) (by norm_num)

/-- C9: whenever `addRoom` raises any error, the room collection is left
completely unchanged. -/
theorem addRoom_error_unchanged (h : Hotel) (n : String) (b d : ℚ)
    (e : HotelError) (he : (h.addRoom n b d).error = some e) :
    (h.addRoom n b d).hotel = h := by
  unfold Hotel.addRoom at he ⊢
  by_cases hdup : h.existsRoomNumber n = true
  · simp [hdup]
  · rw [Bool.not_eq_true] at hdup
    cases hs : (if d = 0 then Except.ok IDiscountStrategy.noDiscount
        else PercentageDiscountStrategy.make d) with
    | error e2 => simp [hdup, hs]
    | ok strat =>
      cases hr : RoomBase.make n b (some strat) with
      | error e2 => simp [hdup, hs, hr]
      | ok room =>
        simp [hdup, hs, hr] at he

/-- Witness for C9: `addRoom` with `baseCost = 0` on the empty hotel fails
and leaves the hotel empty. -/
theorem addRoom_error_unchanged_witness :
    ((Hotel.mk []).addRoom "102" 0 0).hotel = Hotel.mk [] :=
  addRoom_error_unchanged (Hotel.mk []) "102" 0 0
    (HotelError.invalidValue "базовая стоимость должна быть > 0") (by decide)

/-- C10: the duplicate check runs before discount-policy construction: a
duplicate label with an out-of-range discount fails with `DuplicateRoom`,
not `InvalidValue`. -/
theorem addRoom_duplicate_precedes_policy (h : Hotel) (n : String) (b d : ℚ)
    (hdup : h.existsRoomNumber n = true) (hbad : d < 0 ∨ 100 ≤ d) :
    (h.addRoom n b d).error = some (HotelError.duplicateRoom n) := by
  unfold Hotel.addRoom
  simp [hdup]

/-- Witness for C10: duplicate label "101" with discount 150 still reports
the duplicate, not the invalid rate. -/
theorem addRoom_duplicate_precedes_policy_witness :
    ((Hotel.mk [⟨"101", 100, IDiscountStrategy.noDiscount⟩]).addRoom "101" 100 150).error
      = some (HotelError.duplicateRoom "101") :=
  addRoom_duplicate_precedes_policy
    (Hotel.mk [⟨"101", 100, IDiscountStrategy.noDiscount⟩]) "101" 100 150
    (by decide) (Or.inr (by norm_num))

end HotelSpec
